import Mathlib

/-!
# Verification of the seltask page-object suite

Shallow embedding of the Selenium page-object test suite (pages/base_page.py,
pages/twitch_home_page.py, pages/twitch_search_page.py,
pages/twitch_stream_page.py).  DOM elements, the live document and the
browser environment are modelled as explicit data; page-object methods
become pure Lean functions over that data.  Blocking waits are abstracted
to the observation they produce (an element is visible within the wait, a
URL changed within the wait, ...), which is how the methods consume them.
Exceptions raised by a method are modelled with `Except`; screenshots taken
on a path are collected in a `List String` of screenshot names.
-/

namespace SelTask

/-! ## String primitives

Python string operations used by the suite, re-implemented structurally
over `List Char` so they evaluate by kernel reduction.  `pySplitChar`
mirrors `str.split(sep)` for a one-character separator; `pySplitFuel`
mirrors `str.split(sep)` for a multi-character separator (left-to-right,
non-overlapping, keeping empty parts), with fuel bounded by the string
length so the recursion is structural. -/

/-- Python `s.split(c)` for a single-character separator `c`. -/
def pySplitChar (sep : Char) : List Char → List (List Char)
  | [] => [[]]
  | c :: rest =>
    if c = sep then [] :: pySplitChar sep rest
    else
      match pySplitChar sep rest with
      | [] => [[c]]
      | h :: t => (c :: h) :: t

/-- Worker for `pySplit`: scans left to right; on a separator match, emits
the accumulated part and drops the separator.  Each step consumes one unit
of fuel; `fuel = length + 1` always suffices for a nonempty separator. -/
def pySplitFuel (sep : List Char) : Nat → List Char → List Char → List (List Char)
  | 0, s, acc => [acc.reverse ++ s]
  | _ + 1, [], acc => [acc.reverse]
  | fuel + 1, c :: rest, acc =>
    if sep.isPrefixOf (c :: rest) then
      acc.reverse :: pySplitFuel sep fuel ((c :: rest).drop sep.length) []
    else
      pySplitFuel sep fuel rest (c :: acc)

/-- Python `s.split(sep)` for a nonempty separator string. -/
def pySplit (sep s : String) : List String :=
  (pySplitFuel sep.data (s.data.length + 1) s.data []).map List.asString

/-- `pat` occurs as a contiguous run of `s` (used for Python `in`). -/
def listInfix (pat : List Char) : List Char → Bool
  | [] => pat.isEmpty
  | c :: rest => pat.isPrefixOf (c :: rest) || listInfix pat rest

/-- Python `pat in s` (substring containment). -/
def strContains (s pat : String) : Bool :=
  listInfix pat.data s.data

/-- Python `s.lower()` (ASCII case folding, as used on ASCII keywords). -/
def strLower (s : String) : String :=
  (s.data.map Char.toLower).asString

/-- Python `s.startswith(pat)`. -/
def strStartsWith (s pat : String) : Bool :=
  pat.data.isPrefixOf s.data

/-- Python `s.lstrip('/')`. -/
def strLstripSlash (s : String) : String :=
  (s.data.dropWhile (fun c => c = '/')).asString

/-- Python `s.split(c)[0]`: the prefix before the first occurrence of `c`. -/
def pySplitHead (sep : Char) (s : List Char) : List Char :=
  (pySplitChar sep s).headD []

/-! ## `TwitchSearchPage._is_valid_channel_path` (twitch_search_page.py 42-63)

```python
if not path or path == '/':
    return False
clean_path = path.split('?')[0].split('#')[0]
if len(clean_path) < 2 or len(clean_path) > 30:
    return False
return True
``` -/

/-- The cleaned path: `path.split('?')[0].split('#')[0]`. -/
def cleanPath (path : String) : String :=
  (pySplitHead '#' (pySplitHead '?' path.data)).asString

/-- `TwitchSearchPage._is_valid_channel_path`. -/
def is_valid_channel_path (path : String) : Bool :=
  if path = "" || path = "/" then false
  else
    let clean_path := cleanPath path
    if clean_path.length < 2 || clean_path.length > 30 then false
    else true

/-! ## DOM model

A `DomElem` carries exactly the observations the suite makes of a live
element: `displayed` (Selenium `is_displayed()`), `href` (the value of
`get_attribute('href')`, `none` when the attribute is absent), `text`
(Selenium `element.text`, the full rendered text), `descendantTexts`
(the rendered text of each proper descendant node, probed by the XPath
`.//*[contains(text(), ...)]`), and `liveUserImgSrcs` (the `src` values
of descendant images matching `img[src*='live_user_']`, in DOM order,
as probed by `find_elements(By.CSS_SELECTOR, "img[src*='live_user_']")`). -/

structure DomElem where
  displayed : Bool
  href : Option String
  text : String
  descendantTexts : List String
  liveUserImgSrcs : List String
deriving DecidableEq, Repr, Inhabited

/-! ## `TwitchSearchPage._extract_channel_from_element` (79-109)

```python
href = element.get_attribute('href')
if href:
    if href.startswith('/'):
        return href
    elif 'twitch.tv' in href:
        return href.split('twitch.tv')[-1]
try:
    imgs = element.find_elements(By.CSS_SELECTOR, "img[src*='live_user_']")
    if imgs:
        src = imgs[0].get_attribute('src')
        if 'live_user_' in src:
            channel = src.split('live_user_')[1].split('-')[0].split('.')[0]
            return f"/{channel}"
except:
    pass
return ""
```
Note the fall-through: an href that neither starts with `/` nor contains
`twitch.tv` falls into the image probe. -/

/-- The image-probe half of `_extract_channel_from_element`. -/
def extract_channel_from_imgs (e : DomElem) : String :=
  match e.liveUserImgSrcs with
  | [] => ""
  | src :: _ =>
    if strContains src "live_user_" then
      let channel :=
        ((pySplit "." (((pySplit "-" ((pySplit "live_user_" src).getD 1 "")).headD ""))).headD "")
      "/" ++ channel
    else ""

/-- `TwitchSearchPage._extract_channel_from_element`. -/
def extract_channel_from_element (e : DomElem) : String :=
  match e.href with
  | some href =>
    if href ≠ "" then
      if strStartsWith href "/" then href
      else if strContains href "twitch.tv" then (pySplit "twitch.tv" href).getLastD ""
      else extract_channel_from_imgs e
    else extract_channel_from_imgs e
  | none => extract_channel_from_imgs e

/-! ## `TwitchSearchPage._is_streaming_game` (111-138)

```python
element_text = element.text
if game_name.lower() in element_text.lower():
    return True
game_elements = element.find_elements(By.XPATH, ".//*[contains(text(), '" + game_name + "')]")
if game_elements:
    return True
return False
```
The first check is case-insensitive; the XPath descendant check is
case-sensitive. -/

/-- `TwitchSearchPage._is_streaming_game`. -/
def is_streaming_game (e : DomElem) (game_name : String) : Bool :=
  if strContains (strLower e.text) (strLower game_name) then true
  else
    let game_elements := e.descendantTexts.filter (fun t => strContains t game_name)
    if game_elements.isEmpty then false else true

/-! ## `TwitchSearchPage.get_streamer_elements` (140-262)

The search-results document is modelled by the raw match list of each of
the four locators in the chain, plus the ancestor map used by the first
branch (`img.find_element(By.XPATH, "./ancestor::button | ./ancestor::a")`,
which returns the clickable ancestor of a result-card image; the method
is modelled under the assumption that this lookup succeeds, as it does for
any image inside a card). -/

structure SearchPage where
  /-- matches of `SEARCH_RESULT_CARDS` =
      `button img[src*='live_user_'], a img[src*='live_user_']` -/
  searchResultCardImgs : List DomElem
  /-- `./ancestor::button | ./ancestor::a` of a result-card image -/
  imgAncestor : DomElem → DomElem
  /-- matches of `LIVE_CHANNEL_CARDS` = `[data-a-target='preview-card-image-link']` -/
  liveChannelCards : List DomElem
  /-- matches of `CHANNEL_CARDS` = `a[data-a-target='preview-card-channel-link']` -/
  channelCards : List DomElem
  /-- matches of `STREAMER_LINKS` = `article a, a[href*='/videos'], a[href^='/'][href*='/']` -/
  streamerLinks : List DomElem

/-- One iteration of the first branch of `get_streamer_elements`
(151-172): for a displayed result-card image, take its clickable ancestor
and keep it when its extracted channel path is valid and it advertises
the game. -/
def branch1Candidate (anc : DomElem → DomElem) (img : DomElem) : Option DomElem :=
  if img.displayed then
    let parent := anc img
    let channel_path := extract_channel_from_element parent
    if is_valid_channel_path channel_path && is_streaming_game parent "StarCraft II" then
      some parent
    else none
  else none

/-- The `valid` list built by the first branch of `get_streamer_elements`. -/
def branch1Valid (p : SearchPage) : List DomElem :=
  p.searchResultCardImgs.filterMap (branch1Candidate p.imgAncestor)

/-- The path computed from an href by the three href-based branches
(`none` models the loop's `continue`):

```python
if href.startswith('/'):
    path = href
elif 'twitch.tv' in href:
    path = href.split('twitch.tv')[-1]
else:
    continue
``` -/
def hrefPath (href : String) : Option String :=
  if strStartsWith href "/" then some href
  else if strContains href "twitch.tv" then
    some ((pySplit "twitch.tv" href).getLastD "")
  else none

/-- One iteration of the shared body of the three href-based branches of
`get_streamer_elements` (174-260): keep a displayed element whose href
resolves to a path (relative, or the suffix after `twitch.tv`) that is a
valid channel path, when the element advertises the game. -/
def hrefCandidate (e : DomElem) : Option DomElem :=
  if e.displayed then
    match e.href with
    | some href =>
      if href ≠ "" then
        match hrefPath href with
        | some path =>
          if is_valid_channel_path path && is_streaming_game e "StarCraft II" then
            some e
          else none
        | none => none
      else none
    | none => none
  else none

/-- The `valid` list built by an href-based branch of
`get_streamer_elements`. -/
def hrefBranchValid (elems : List DomElem) : List DomElem :=
  elems.filterMap hrefCandidate

/-- The four locators of the streamer-element chain, in priority order. -/
inductive StreamerLoc
  | searchResultCards
  | liveChannelCards
  | channelCards
  | streamerLinks
deriving DecidableEq, Repr

/-- The full locator chain in listed order. -/
def streamerChain : List StreamerLoc :=
  [.searchResultCards, .liveChannelCards, .channelCards, .streamerLinks]

/-- `TwitchSearchPage.get_streamer_elements`, instrumented: returns the
locators attempted in order, the screenshots taken, and the result
(`Except.error` models the final uncaught `raise`).  A branch returns its
`valid` list when the locator produced matches and the filter kept at
least one of them; otherwise control falls to the next locator. -/
def get_streamer_elements_trace (p : SearchPage) :
    List StreamerLoc × List String × Except String (List DomElem) :=
  if !p.searchResultCardImgs.isEmpty && !(branch1Valid p).isEmpty then
    ([.searchResultCards], [], .ok (branch1Valid p))
  else if !p.liveChannelCards.isEmpty && !(hrefBranchValid p.liveChannelCards).isEmpty then
    ([.searchResultCards, .liveChannelCards], [], .ok (hrefBranchValid p.liveChannelCards))
  else if !p.channelCards.isEmpty && !(hrefBranchValid p.channelCards).isEmpty then
    ([.searchResultCards, .liveChannelCards, .channelCards], [],
      .ok (hrefBranchValid p.channelCards))
  else if !p.streamerLinks.isEmpty && !(hrefBranchValid p.streamerLinks).isEmpty then
    (streamerChain, [], .ok (hrefBranchValid p.streamerLinks))
  else
    (streamerChain, ["no_streamers_found"],
      .error "No streamer elements found on the page")

/-- `TwitchSearchPage.get_streamer_elements` (result view). -/
def get_streamer_elements (p : SearchPage) : Except String (List DomElem) :=
  (get_streamer_elements_trace p).2.2

/-! ## `TwitchSearchPage.select_streamer` (264-317)

```python
streamers = self.get_streamer_elements()
if index >= len(streamers):
    raise IndexError(...)
streamer = streamers[index]
channel_path = self._extract_channel_from_element(streamer)
... scrollIntoView ...
wait = WebDriverWait(self.driver, 5)
wait.until(EC.element_to_be_clickable((By.XPATH, f".//*")))
old_url = self.driver.current_url
expected_channel = channel_path.lstrip('/')
try: streamer.click()
except: self.driver.execute_script("arguments[0].click();", streamer)
wait.until(lambda driver: driver.current_url != old_url)
new_url = self.driver.current_url
if expected_channel and expected_channel not in new_url:
    print(f"... Warning: ...")
```
The click itself cannot abort (the JavaScript fallback catches the failed
native click), but both `wait.until` calls raise `TimeoutException`
uncaught when their condition never holds within the 5-second wait. -/

/-- Browser observations consumed by `select_streamer` after the index
check: whether the clickability wait succeeds, whether the current URL
changed from the pre-click URL within the wait, and the URL read after
the wait. -/
structure ClickEnv where
  anyClickable : Bool
  urlChanged : Bool
  newUrl : String
deriving DecidableEq, Repr

/-- Outcome of `select_streamer`: the constructors other than `okClean`
and `okWarned` are uncaught exceptions. -/
inductive SelectOutcome
  | notFoundErr (msg : String)
  | indexError (idx n : Nat)
  | clickableTimeout
  | navTimeout
  | okWarned
  | okClean
deriving DecidableEq, Repr

/-- `select_streamer` returned normally (no exception). -/
def SelectOutcome.returnsNormally : SelectOutcome → Bool
  | .okWarned => true
  | .okClean => true
  | _ => false

/-- Body of `select_streamer` after `get_streamer_elements` returned. -/
def select_from (streamers : List DomElem) (env : ClickEnv) (index : Nat) : SelectOutcome :=
  if streamers.length ≤ index then .indexError index streamers.length
  else
    let streamer := streamers.getD index default
    let channel_path := extract_channel_from_element streamer
    if !env.anyClickable then .clickableTimeout
    else
      let expected_channel := strLstripSlash channel_path
      if !env.urlChanged then .navTimeout
      else
        if expected_channel ≠ "" && !(strContains env.newUrl expected_channel) then .okWarned
        else .okClean

/-- `TwitchSearchPage.select_streamer`. -/
def select_streamer (p : SearchPage) (env : ClickEnv) (index : Nat) : SelectOutcome :=
  match get_streamer_elements p with
  | .error msg => .notFoundErr msg
  | .ok streamers => select_from streamers env index

/-! ## `TwitchHomePage.click_search_icon` (twitch_home_page.py 42-75)

An `elif` chain over `is_element_visible` probes (each a bounded wait
returning a Bool), with a final JavaScript-click fallback on any element
whose text contains `Browse`, and an exception (after a screenshot) when
nothing matched. -/

/-- Visibility observations of the home document, one per locator probed
by `click_search_icon`, plus whether the JavaScript fallback query
`//*[contains(text(), 'Browse')]` matches at least one element. -/
structure HomePage where
  browseVisible : Bool
  browseAltVisible : Bool
  browseAlt2Visible : Bool
  searchIconVisible : Bool
  searchButtonVisible : Bool
  searchButtonAltVisible : Bool
  browseTextPresent : Bool
deriving DecidableEq, Repr

/-- Which locator `click_search_icon` ended up clicking. -/
inductive SearchOpenClick
  | browse
  | browseAlt
  | browseAlt2
  | searchIcon
  | searchButton
  | searchButtonAlt
  | jsBrowse
deriving DecidableEq, Repr

/-- `TwitchHomePage.click_search_icon`: screenshots taken and the click
performed (`Except.error` models the re-raised exception). -/
def click_search_icon (h : HomePage) : List String × Except String SearchOpenClick :=
  if h.browseVisible then ([], .ok .browse)
  else if h.browseAltVisible then ([], .ok .browseAlt)
  else if h.browseAlt2Visible then ([], .ok .browseAlt2)
  else if h.searchIconVisible then ([], .ok .searchIcon)
  else if h.searchButtonVisible then ([], .ok .searchButton)
  else if h.searchButtonAltVisible then ([], .ok .searchButtonAlt)
  else if h.browseTextPresent then ([], .ok .jsBrowse)
  else (["search_button_not_found"], .error "Search button not found with any locator")

/-! ## `TwitchStreamPage` (twitch_stream_page.py)

`handle_modals` (21-52) runs three dismissal sub-steps, each of the form

```python
try:
    if self.is_element_visible(LOCATOR, timeout=t):
        self.click(LOCATOR)
        self.wait_for_invisibility(LOCATOR, timeout=3)
except:
    pass
```

`is_element_visible` (base_page.py 95-111) returns `False` on timeout
rather than raising, and each sub-step's own `except: pass` swallows any
click or invisibility-wait failure, so `handle_modals` never raises.

`verify_stream_loaded` (54-90) accepts a visible video element (playing
or paused), falls back to a visible player container, and otherwise
screenshots and raises — the outer `except` screenshots again and
re-raises.  `is_video_playing` (92-108) returns `False` when the video
element is missing or the paused probe fails. -/

/-- Stream-page observations: visibility of the three modal buttons, the
success of each dismissal's click and invisibility wait, and the video
player probes. -/
structure StreamEnv where
  matureVisible : Bool
  matureClickOk : Bool
  matureInvisOk : Bool
  consentVisible : Bool
  consentClickOk : Bool
  consentInvisOk : Bool
  closeVisible : Bool
  closeClickOk : Bool
  closeInvisOk : Bool
  videoVisible : Bool
  videoPresent : Bool
  videoNotPaused : Bool
  containerVisible : Bool
deriving DecidableEq, Repr

/-- One modal-dismissal sub-step: the clicks performed and whether its
body raised (before its `except: pass` swallows the failure). -/
def modal_substep (visible clickOk invisOk : Bool) (name : String) :
    List String × Bool :=
  if visible then
    if clickOk then
      if invisOk then ([name], false) else ([name], true)
    else ([], true)
  else ([], false)

/-- `TwitchStreamPage.handle_modals`: always `Except.ok` because each
sub-step's exceptions are swallowed; the payload lists the dismissal
clicks performed. -/
def handle_modals (env : StreamEnv) : Except String (List String) :=
  let s1 := modal_substep env.matureVisible env.matureClickOk env.matureInvisOk
    "mature_content_accept"
  let s2 := modal_substep env.consentVisible env.consentClickOk env.consentInvisOk
    "consent_banner_accept"
  let s3 := modal_substep env.closeVisible env.closeClickOk env.closeInvisOk
    "close_modal"
  .ok (s1.1 ++ s2.1 ++ s3.1)

/-- `TwitchStreamPage.is_video_playing`. -/
def is_video_playing (env : StreamEnv) : Bool :=
  if env.videoPresent then env.videoNotPaused else false

/-- `TwitchStreamPage.verify_stream_loaded`: screenshots taken and the
result.  The two screenshot names on the failure path come from the inner
raise (`video_player_not_found`) followed by the outer re-raise handler
(`video_player_error`). -/
def verify_stream_loaded (env : StreamEnv) : List String × Except String Unit :=
  if env.videoVisible then
    if is_video_playing env then ([], .ok ()) else ([], .ok ())
  else if env.containerVisible then ([], .ok ())
  else
    (["video_player_not_found", "video_player_error"],
      .error "Video player did not load successfully")

/-! ## Concrete scenario instances

Concrete documents, elements and browser observations used to settle the
claims on explicit inputs. -/

/-- Witness for C7: a session with no modal visible. -/
def c7Env : StreamEnv :=
  ⟨false, false, false, false, false, false, false, false, false, true, true, true, true⟩

/-- Witness for C10: a session where neither the video nor the player
container becomes visible. -/
def c10Env : StreamEnv :=
  ⟨false, false, false, false, false, false, false, false, false, false, false, false, false⟩

/-- Witness for C6: a results page where every locator has no match. -/
def c6Page : SearchPage := ⟨[], fun e => e, [], [], []⟩

/-- A displayed live-channel card of a valid StarCraft II channel, used
to drive `select_streamer` in the C4 scenarios. -/
def c4Card : DomElem := ⟨true, some "/gamer", "StarCraft II", [], []⟩

/-- A results page whose second locator resolves to `c4Card`. -/
def c4Page : SearchPage := ⟨[], fun e => e, [c4Card], [], []⟩

/-- A browser state where the clickability wait succeeds but the URL
never changes within the bounded wait. -/
def c4Env : ClickEnv := ⟨true, false, "https://www.twitch.tv/search?term=starcraft"⟩

/-- A browser state where the URL changes but to a page that does not
contain the expected channel segment. -/
def c4WEnv : ClickEnv := ⟨true, true, "https://www.twitch.tv/otherchannel"⟩

/-- A displayed live-channel card of a valid StarCraft II channel, used
to drive `select_streamer` in the C5 scenarios. -/
def c5Card : DomElem := ⟨true, some "/sctwo", "live StarCraft II", [], []⟩

/-- A results page whose second locator resolves to `c5Card` only. -/
def c5Page : SearchPage := ⟨[], fun e => e, [c5Card], [], []⟩

/-- A browser state where the clickability wait succeeds but the URL
never changes within the bounded wait. -/
def c5Env : ClickEnv := ⟨true, false, "https://www.twitch.tv/search?term=sc2"⟩

/-- A browser state where the click navigates to the expected channel. -/
def c5WEnv : ClickEnv := ⟨true, true, "https://www.twitch.tv/sctwo"⟩

/-- A displayed result-card image whose clickable ancestor fails the
game filter (valid channel path, wrong game). -/
def c1BadImg : DomElem := ⟨true, none, "", [], []⟩

/-- The ancestor of `c1BadImg`: valid channel path, but not a StarCraft
II card. -/
def c1BadAncestor : DomElem := ⟨true, some "/badchannel", "Fortnite", [], []⟩

/-- A displayed live-channel card that passes every filter. -/
def c1GoodCard : DomElem := ⟨true, some "/gamer", "StarCraft II", [], []⟩

/-- A results page where the first locator has a visible match (whose
candidate is filtered out) and the second locator has a valid card. -/
def c1Page : SearchPage := ⟨[c1BadImg], fun _ => c1BadAncestor, [c1GoodCard], [], []⟩

/-- A first-locator image whose ancestor passes every filter. -/
def c1WImg : DomElem := ⟨true, none, "", [], []⟩

/-- The valid StarCraft II ancestor of `c1WImg`. -/
def c1WCard : DomElem := ⟨true, some "/gamer", "StarCraft II", [], []⟩

/-- A results page where the first locator already yields a valid
candidate. -/
def c1WPage : SearchPage := ⟨[c1WImg], fun _ => c1WCard, [], [], []⟩

/-- A home page where the first search-opening locator is visible. -/
def c1WHome : HomePage := ⟨true, false, false, false, false, false, false⟩

/-- A displayed result-card image with a `live_user_` source. -/
def c2Img : DomElem := ⟨true, none, "", [], ["https://s.tv/live_user_rotterdam08-440x248.jpg"]⟩

/-- The clickable ancestor of `c2Img`, distinct from it, passing every
filter. -/
def c2Parent : DomElem :=
  ⟨true, some "/rotterdam08", "Rotterdam08 playing StarCraft II", [],
    ["https://s.tv/live_user_rotterdam08-440x248.jpg"]⟩

/-- A results page where the first locator's raw input is `[c2Img]`. -/
def c2Page : SearchPage := ⟨[c2Img], fun _ => c2Parent, [], [], []⟩

/-- A displayed card with valid path and keyword, kept by the filter. -/
def c2WCard : DomElem := ⟨true, some "/gamer", "StarCraft II", [], []⟩

/-- A displayed result-card image whose clickable ancestor is hidden. -/
def c9Img : DomElem := ⟨true, none, "", [], []⟩

/-- The hidden ancestor of `c9Img`, with a valid channel path and the
keyword; its own visibility is never checked by the first branch. -/
def c9HiddenParent : DomElem := ⟨false, some "/ghost", "StarCraft II", [], []⟩

/-- A results page on which `get_streamer_elements` returns a hidden
element. -/
def c9Page : SearchPage := ⟨[c9Img], fun _ => c9HiddenParent, [], [], []⟩

/-- A displayed card with valid path and keyword. -/
def c9WCard : DomElem := ⟨true, some "/gamer", "StarCraft II", [], []⟩

/-- A results page resolving to `[c9WCard]` via the second locator. -/
def c9WPage : SearchPage := ⟨[], fun e => e, [c9WCard], [], []⟩

/-! ## Structural lemmas about the candidate filters -/

/-- When an element's href yields a path via the branch logic, the
general extractor `_extract_channel_from_element` computes that same
path (the image probe is never reached). -/
theorem extract_eq_hrefPath {e : DomElem} {href path : String}
    (hh : e.href = some href) (hne : href ≠ "") (hp : hrefPath href = some path) :
    extract_channel_from_element e = path := by
  unfold extract_channel_from_element
  rw [hh]
  unfold hrefPath at hp
  dsimp only
  rw [if_pos hne]
  by_cases hs : strStartsWith href "/" = true
  · rw [if_pos hs] at hp ⊢
    injection hp
  · rw [if_neg hs] at hp ⊢
    by_cases ht : strContains href "twitch.tv" = true
    · rw [if_pos ht] at hp ⊢
      injection hp
    · rw [if_neg ht] at hp
      exact absurd hp (by simp)

/-- An href-branch iteration keeps only the element itself, and only when
it is displayed, its extracted channel path is valid, and it advertises
the game. -/
theorem hrefCandidate_some {e e' : DomElem} (h : hrefCandidate e = some e') :
    e' = e ∧ e.displayed = true ∧
    is_valid_channel_path (extract_channel_from_element e) = true ∧
    is_streaming_game e "StarCraft II" = true := by
  unfold hrefCandidate at h
  split at h
  case isTrue hd =>
    split at h
    · next href hh =>
      split at h
      case isTrue hne =>
        split at h
        · next path hp =>
          split at h
          case isTrue hv =>
            obtain ⟨hv1, hv2⟩ := Bool.and_eq_true .. |>.mp hv
            injection h with h
            subst h
            exact ⟨rfl, hd, by rw [extract_eq_hrefPath hh hne hp]; exact hv1, hv2⟩
          case isFalse => exact absurd h (by simp)
        · exact absurd h (by simp)
      case isFalse => exact absurd h (by simp)
    · exact absurd h (by simp)
  case isFalse => exact absurd h (by simp)

/-- A first-branch iteration keeps only the clickable ancestor of the
image, and only when the image is displayed and the ancestor has a valid
extracted channel path and advertises the game. -/
theorem branch1Candidate_some {anc : DomElem → DomElem} {img e' : DomElem}
    (h : branch1Candidate anc img = some e') :
    e' = anc img ∧ img.displayed = true ∧
    is_valid_channel_path (extract_channel_from_element (anc img)) = true ∧
    is_streaming_game (anc img) "StarCraft II" = true := by
  unfold branch1Candidate at h
  by_cases hd : img.displayed = true
  · simp only [hd, if_true] at h
    by_cases hv : (is_valid_channel_path (extract_channel_from_element (anc img)) &&
        is_streaming_game (anc img) "StarCraft II") = true
    · simp only [hv, if_true, Option.some.injEq] at h
      obtain ⟨hv1, hv2⟩ := Bool.and_eq_true .. |>.mp hv
      exact ⟨h.symm, hd, hv1, hv2⟩
    · simp [hv] at h
  · simp [hd] at h

/-- The href-branch output is a sublist of its raw input (subset in the
input's relative order). -/
theorem hrefBranchValid_sublist (l : List DomElem) : List.Sublist (hrefBranchValid l) l := by
  induction l with
  | nil => simp [hrefBranchValid]
  | cons a t ih =>
    unfold hrefBranchValid at ih ⊢
    rw [List.filterMap_cons]
    cases hc : hrefCandidate a with
    | none => exact ih.cons a
    | some b =>
      obtain ⟨hb, -, -, -⟩ := hrefCandidate_some hc
      subst hb
      exact ih.cons₂ b

/-- Every element kept by an href branch is displayed, has a valid
extracted channel path, and advertises the game. -/
theorem mem_hrefBranchValid {l : List DomElem} {e : DomElem}
    (h : e ∈ hrefBranchValid l) :
    e.displayed = true ∧
    is_valid_channel_path (extract_channel_from_element e) = true ∧
    is_streaming_game e "StarCraft II" = true := by
  unfold hrefBranchValid at h
  rw [List.mem_filterMap] at h
  obtain ⟨a, -, hc⟩ := h
  obtain ⟨rfl, hd, hv, hg⟩ := hrefCandidate_some hc
  exact ⟨hd, hv, hg⟩

/-- Every element kept by the first branch has a valid extracted channel
path and advertises the game (its own visibility is not checked). -/
theorem mem_branch1Valid {p : SearchPage} {e : DomElem} (h : e ∈ branch1Valid p) :
    is_valid_channel_path (extract_channel_from_element e) = true ∧
    is_streaming_game e "StarCraft II" = true := by
  unfold branch1Valid at h
  rw [List.mem_filterMap] at h
  obtain ⟨img, -, hc⟩ := h
  obtain ⟨rfl, -, hv, hg⟩ := branch1Candidate_some hc
  exact ⟨hv, hg⟩

/-- The first branch computes, in input order, the ancestors of the
displayed images, filtered by the validity-and-game predicate on the
ancestor. -/
theorem branch1Valid_eq (p : SearchPage) :
    branch1Valid p =
      ((p.searchResultCardImgs.filter (fun i => i.displayed)).map p.imgAncestor).filter
        (fun a => is_valid_channel_path (extract_channel_from_element a) &&
          is_streaming_game a "StarCraft II") := by
  unfold branch1Valid
  induction p.searchResultCardImgs with
  | nil => rfl
  | cons img t ih =>
    simp only [List.filterMap_cons, List.filter_cons, List.map_cons, branch1Candidate]
    by_cases hd : img.displayed = true <;>
      by_cases hp : (is_valid_channel_path (extract_channel_from_element (p.imgAncestor img)) &&
          is_streaming_game (p.imgAncestor img) "StarCraft II") = true <;>
        simp [hd, hp, ih]

/-- A hidden element is dropped by an href-branch iteration. -/
theorem hrefBranchValid_eq_nil_of_hidden {l : List DomElem}
    (h : ∀ e ∈ l, e.displayed = false) : hrefBranchValid l = [] := by
  unfold hrefBranchValid
  rw [List.filterMap_eq_nil_iff]
  intro a ha
  unfold hrefCandidate
  rw [if_neg (by simp [h a ha])]

/-- A hidden image is dropped by a first-branch iteration. -/
theorem branch1Valid_eq_nil_of_hidden {p : SearchPage}
    (h : ∀ e ∈ p.searchResultCardImgs, e.displayed = false) : branch1Valid p = [] := by
  unfold branch1Valid
  rw [List.filterMap_eq_nil_iff]
  intro a ha
  unfold branch1Candidate
  rw [if_neg (by simp [h a ha])]

/-- `get_streamer_elements_trace` takes exactly one of five shapes: one of
the four branches returns its `valid` list having attempted exactly the
locators up to and including its own, or the chain is exhausted. -/
theorem gse_trace_cases (p : SearchPage) :
    get_streamer_elements_trace p = ([.searchResultCards], [], .ok (branch1Valid p)) ∨
    get_streamer_elements_trace p =
      ([.searchResultCards, .liveChannelCards], [], .ok (hrefBranchValid p.liveChannelCards)) ∨
    get_streamer_elements_trace p =
      ([.searchResultCards, .liveChannelCards, .channelCards], [],
        .ok (hrefBranchValid p.channelCards)) ∨
    get_streamer_elements_trace p =
      (streamerChain, [], .ok (hrefBranchValid p.streamerLinks)) ∨
    get_streamer_elements_trace p =
      (streamerChain, ["no_streamers_found"],
        .error "No streamer elements found on the page") := by
  unfold get_streamer_elements_trace
  split_ifs <;> tauto

/-- A successful `get_streamer_elements` returns one of the four branches'
`valid` lists. -/
theorem gse_ok_cases {p : SearchPage} {l : List DomElem}
    (h : get_streamer_elements p = .ok l) :
    l = branch1Valid p ∨ l = hrefBranchValid p.liveChannelCards ∨
    l = hrefBranchValid p.channelCards ∨ l = hrefBranchValid p.streamerLinks := by
  unfold get_streamer_elements at h
  rcases gse_trace_cases p with hc | hc | hc | hc | hc <;> rw [hc] at h <;> simp at h
  · exact Or.inl h.symm
  · exact Or.inr (Or.inl h.symm)
  · exact Or.inr (Or.inr (Or.inl h.symm))
  · exact Or.inr (Or.inr (Or.inr h.symm))

/-- If the first branch keeps at least one candidate, the method returns
it having attempted only the first locator, whatever the later locators
hold. -/
theorem gse_trace_branch1 {p : SearchPage} (h : branch1Valid p ≠ []) :
    get_streamer_elements_trace p = ([.searchResultCards], [], .ok (branch1Valid p)) := by
  have himgs : p.searchResultCardImgs ≠ [] := by
    intro h0
    exact h (by unfold branch1Valid; rw [h0]; rfl)
  unfold get_streamer_elements_trace
  rw [if_pos (by simp [himgs, h])]

/-- If the first branch keeps nothing but the second does, the method
returns the second branch's list having attempted exactly the first two
locators. -/
theorem gse_trace_branch2 {p : SearchPage} (h1 : branch1Valid p = [])
    (h2 : hrefBranchValid p.liveChannelCards ≠ []) :
    get_streamer_elements_trace p =
      ([.searchResultCards, .liveChannelCards], [],
        .ok (hrefBranchValid p.liveChannelCards)) := by
  have hlive : p.liveChannelCards ≠ [] := by
    intro h0
    exact h2 (by unfold hrefBranchValid; rw [h0]; rfl)
  unfold get_streamer_elements_trace
  rw [if_neg (by simp [h1]), if_pos (by simp [hlive, h2])]

/-- Third-locator analogue of `gse_trace_branch2`. -/
theorem gse_trace_branch3 {p : SearchPage} (h1 : branch1Valid p = [])
    (h2 : hrefBranchValid p.liveChannelCards = [])
    (h3 : hrefBranchValid p.channelCards ≠ []) :
    get_streamer_elements_trace p =
      ([.searchResultCards, .liveChannelCards, .channelCards], [],
        .ok (hrefBranchValid p.channelCards)) := by
  have hch : p.channelCards ≠ [] := by
    intro h0
    exact h3 (by unfold hrefBranchValid; rw [h0]; rfl)
  unfold get_streamer_elements_trace
  rw [if_neg (by simp [h1]), if_neg (by simp [h2]), if_pos (by simp [hch, h3])]

/-- Fourth-locator analogue of `gse_trace_branch2`. -/
theorem gse_trace_branch4 {p : SearchPage} (h1 : branch1Valid p = [])
    (h2 : hrefBranchValid p.liveChannelCards = [])
    (h3 : hrefBranchValid p.channelCards = [])
    (h4 : hrefBranchValid p.streamerLinks ≠ []) :
    get_streamer_elements_trace p =
      (streamerChain, [], .ok (hrefBranchValid p.streamerLinks)) := by
  have hsl : p.streamerLinks ≠ [] := by
    intro h0
    exact h4 (by unfold hrefBranchValid; rw [h0]; rfl)
  unfold get_streamer_elements_trace
  rw [if_neg (by simp [h1]), if_neg (by simp [h2]), if_neg (by simp [h3]),
    if_pos (by simp [hsl, h4])]

/-- When every branch keeps nothing, the chain is exhausted: screenshot
then raise, all four locators attempted. -/
theorem gse_trace_exhausted {p : SearchPage} (h1 : branch1Valid p = [])
    (h2 : hrefBranchValid p.liveChannelCards = [])
    (h3 : hrefBranchValid p.channelCards = [])
    (h4 : hrefBranchValid p.streamerLinks = []) :
    get_streamer_elements_trace p =
      (streamerChain, ["no_streamers_found"],
        .error "No streamer elements found on the page") := by
  unfold get_streamer_elements_trace
  rw [if_neg (by simp [h1]), if_neg (by simp [h2]), if_neg (by simp [h3]),
    if_neg (by simp [h4])]

/-! ## Lemmas about the selection policy -/

/-- After a successful resolution, `select_streamer` behaves as its
post-resolution body. -/
theorem select_streamer_eq_select_from {p : SearchPage} {cands : List DomElem}
    (env : ClickEnv) (i : Nat) (hok : get_streamer_elements p = .ok cands) :
    select_streamer p env i = select_from cands env i := by
  unfold select_streamer
  rw [hok]

/-- An out-of-range index raises `IndexError` before any interaction. -/
theorem select_from_indexError {cands : List DomElem} (env : ClickEnv) {i : Nat}
    (hi : cands.length ≤ i) :
    select_from cands env i = .indexError i cands.length := by
  unfold select_from
  rw [if_pos hi]

/-- With an in-range index, a successful clickability wait and an
observed URL change, `select_streamer`'s body returns normally (warned
or clean). -/
theorem select_from_returns_normally {cands : List DomElem} {env : ClickEnv} {i : Nat}
    (hi : i < cands.length) (ha : env.anyClickable = true) (hu : env.urlChanged = true) :
    (select_from cands env i).returnsNormally = true := by
  unfold select_from
  rw [if_neg (by omega)]
  simp only [ha, hu, Bool.not_true, Bool.false_eq_true, if_false]
  split <;> rfl

/-- With an in-range index and a successful clickability wait, a URL that
never changes within the wait makes the body raise the navigation
timeout. -/
theorem select_from_navTimeout {cands : List DomElem} {env : ClickEnv} {i : Nat}
    (hi : i < cands.length) (ha : env.anyClickable = true) (hu : env.urlChanged = false) :
    select_from cands env i = .navTimeout := by
  unfold select_from
  rw [if_neg (by omega)]
  simp only [ha, hu, Bool.not_true, Bool.not_false, Bool.false_eq_true, if_false, if_true]

/-- With an in-range index, successful waits, and a nonempty expected
channel missing from the resulting URL, the body warns and returns. -/
theorem select_from_okWarned {cands : List DomElem} {env : ClickEnv} {i : Nat}
    (hi : i < cands.length) (ha : env.anyClickable = true) (hu : env.urlChanged = true)
    (hne : strLstripSlash (extract_channel_from_element (cands.getD i default)) ≠ "")
    (hmiss : strContains env.newUrl
      (strLstripSlash (extract_channel_from_element (cands.getD i default))) = false) :
    select_from cands env i = .okWarned := by
  unfold select_from
  rw [if_neg (by omega)]
  simp only [ha, hu, Bool.not_true, Bool.false_eq_true, if_false]
  have hcond : (decide (strLstripSlash (extract_channel_from_element
        (cands.getD i default)) ≠ "") &&
      !strContains env.newUrl (strLstripSlash (extract_channel_from_element
        (cands.getD i default)))) = true := by
    rw [hmiss, Bool.not_false, Bool.and_true, decide_eq_true_eq]
    exact hne
  rw [if_pos hcond]

/-! ## Claim theorems -/

/-- C3: `_is_valid_channel_path` strips the query string and fragment and
then accepts exactly the paths whose cleaned length lies between 2 and 30
characters; the root path is always rejected (its cleaned length is 1).
On the spec's examples: `"/foo?x=1#y"` is judged as `"/foo"` and accepted,
`"/"` is rejected, a path with cleaned length exactly 30 is accepted and
one of 31 characters is rejected. -/
theorem c3_valid_channel_path :
    (∀ p : String, is_valid_channel_path p = true ↔
      2 ≤ (cleanPath p).length ∧ (cleanPath p).length ≤ 30) ∧
    cleanPath "/foo?x=1#y" = "/foo" ∧
    is_valid_channel_path "/foo?x=1#y" = true ∧
    is_valid_channel_path "/" = false ∧
    is_valid_channel_path "/12345678901234567890123456789" = true ∧
    is_valid_channel_path "/123456789012345678901234567890" = false := by
  refine ⟨?_, by decide, by decide, by decide, by decide, by decide⟩
  intro p
  constructor
  · intro h
    unfold is_valid_channel_path at h
    split at h
    · exact absurd h (by simp)
    · change (if (cleanPath p).length < 2 || (cleanPath p).length > 30
        then false else true) = true at h
      split at h
      · exact absurd h (by simp)
      · next hlen =>
        simp only [Bool.or_eq_true, decide_eq_true_eq, not_or, not_lt] at hlen
        omega
  · rintro ⟨h2, h30⟩
    unfold is_valid_channel_path
    rw [if_neg]
    · change (if (cleanPath p).length < 2 || (cleanPath p).length > 30 then false else true) = true
      rw [if_neg]
      simp only [Bool.or_eq_true, decide_eq_true_eq, not_or, not_lt]
      omega
    · simp only [Bool.or_eq_true, decide_eq_true_eq, not_or]
      constructor
      · rintro rfl
        exact absurd h2 (by decide)
      · rintro rfl
        exact absurd h2 (by decide)

/-- C8: `_is_streaming_game e g` holds iff `g` is a case-insensitive
substring of the element's full rendered text, or some descendant node's
rendered text contains `g` (the XPath probe, case-sensitively). -/
theorem c8_streaming_game_iff (e : DomElem) (g : String) :
    is_streaming_game e g = true ↔
      (strContains (strLower e.text) (strLower g) = true ∨
        ∃ t ∈ e.descendantTexts, strContains t g = true) := by
  unfold is_streaming_game
  split
  · next hci => simp [hci]
  · next hci =>
    have hci' : strContains (strLower e.text) (strLower g) = false := by
      simpa using hci
    change (if (e.descendantTexts.filter (fun t => strContains t g)).isEmpty
      then false else true) = true ↔ _
    constructor
    · intro h
      right
      by_cases hemp : (e.descendantTexts.filter (fun t => strContains t g)).isEmpty = true
      · rw [if_pos hemp] at h
        exact absurd h (by simp)
      · have hne : e.descendantTexts.filter (fun t => strContains t g) ≠ [] := by
          simpa [List.isEmpty_iff] using hemp
        obtain ⟨t, ht⟩ := List.exists_mem_of_ne_nil _ hne
        have hm := List.mem_filter.mp ht
        exact ⟨t, hm.1, hm.2⟩
    · rintro (hc | ⟨t, htmem, htc⟩)
      · rw [hci'] at hc
        exact absurd hc (by simp)
      · have hne : e.descendantTexts.filter (fun t => strContains t g) ≠ [] := by
          intro h0
          have hmem : t ∈ e.descendantTexts.filter (fun t => strContains t g) :=
            List.mem_filter.mpr ⟨htmem, htc⟩
          rw [h0] at hmem
          exact absurd hmem (List.not_mem_nil t)
        rw [if_neg (by simpa [List.isEmpty_iff] using hne)]

/-- C7: for every session state in which no modal is visible,
`handle_modals` completes without raising and performs no dismissal
click; a timed-out visibility probe reads as "no modal present", never
as an error. -/
theorem c7_no_modal_completes (env : StreamEnv)
    (h1 : env.matureVisible = false) (h2 : env.consentVisible = false)
    (h3 : env.closeVisible = false) :
    handle_modals env = .ok [] := by
  unfold handle_modals modal_substep
  rw [h1, h2, h3]
  rfl

/-- C7 witness: `handle_modals` returns without raising on `c7Env`. -/
theorem c7_no_modal_witness : handle_modals c7Env = .ok [] :=
  c7_no_modal_completes c7Env rfl rfl rfl

/-- C10: `verify_stream_loaded` returns successfully exactly when the
video element or (failing that) the player container becomes visible —
a paused video still succeeds — and when neither does, it captures its
diagnostic screenshots before raising. -/
theorem c10_verify_stream_loaded (env : StreamEnv) :
    ((verify_stream_loaded env).2 = .ok () ↔
      (env.videoVisible = true ∨ env.containerVisible = true)) ∧
    (env.videoVisible = false → env.containerVisible = false →
      verify_stream_loaded env =
        (["video_player_not_found", "video_player_error"],
          .error "Video player did not load successfully")) := by
  obtain ⟨mv, mc, mi, cv, cc, ci, clv, clc, cli, vv, vp, vnp, pcv⟩ := env
  cases vv <;> cases pcv <;> cases vp <;> cases vnp <;>
    simp [verify_stream_loaded, is_video_playing]

/-- C10 witness: on `c10Env` the verification screenshots and raises. -/
theorem c10_verify_stream_witness :
    verify_stream_loaded c10Env =
      (["video_player_not_found", "video_player_error"],
        .error "Video player did not load successfully") :=
  (c10_verify_stream_loaded c10Env).2 rfl rfl

/-- C6: when no locator of the streamer chain yields a displayed match,
`get_streamer_elements` captures the diagnostic screenshot and raises,
the exception propagating uncaught out of the method; all four locators
were attempted, in order, each exactly once. -/
theorem c6_chain_exhausted (p : SearchPage)
    (h1 : ∀ e ∈ p.searchResultCardImgs, e.displayed = false)
    (h2 : ∀ e ∈ p.liveChannelCards, e.displayed = false)
    (h3 : ∀ e ∈ p.channelCards, e.displayed = false)
    (h4 : ∀ e ∈ p.streamerLinks, e.displayed = false) :
    get_streamer_elements_trace p =
      (streamerChain, ["no_streamers_found"],
        .error "No streamer elements found on the page") ∧
    streamerChain.Nodup :=
  ⟨gse_trace_exhausted (branch1Valid_eq_nil_of_hidden h1)
    (hrefBranchValid_eq_nil_of_hidden h2) (hrefBranchValid_eq_nil_of_hidden h3)
    (hrefBranchValid_eq_nil_of_hidden h4), by decide⟩

/-- C6 witness: on `c6Page` the chain is exhausted. -/
theorem c6_chain_exhausted_witness :
    get_streamer_elements_trace c6Page =
      (streamerChain, ["no_streamers_found"],
        .error "No streamer elements found on the page") ∧
    streamerChain.Nodup :=
  c6_chain_exhausted c6Page (by simp [c6Page]) (by simp [c6Page])
    (by simp [c6Page]) (by simp [c6Page])

/-- C4 counterexample: with the click performed (clickability wait
succeeded) but no URL change within the bounded wait, `select_streamer`
raises the navigation timeout instead of returning normally. -/
theorem c4_navigation_counterexample :
    get_streamer_elements c4Page = .ok [c4Card] ∧
    c4Env.anyClickable = true ∧ c4Env.urlChanged = false ∧
    select_streamer c4Page c4Env 0 = .navTimeout ∧
    SelectOutcome.navTimeout.returnsNormally = false :=
  ⟨by rfl, rfl, rfl, by rfl, rfl⟩

/-- C4 (amended): after the activation click, a resulting URL that does
not contain the expected channel segment is only warned about and
`select_streamer` returns normally (soft check); but failure to observe
any URL change within the bounded wait raises an uncaught timeout and
aborts `select_streamer`. -/
theorem c4_navigation_amended :
    (∀ (p : SearchPage) (cands : List DomElem) (env : ClickEnv) (i : Nat),
      get_streamer_elements p = .ok cands → i < cands.length →
      env.anyClickable = true → env.urlChanged = true →
      (select_streamer p env i).returnsNormally = true) ∧
    (∀ (p : SearchPage) (cands : List DomElem) (env : ClickEnv) (i : Nat),
      get_streamer_elements p = .ok cands → i < cands.length →
      env.anyClickable = true → env.urlChanged = true →
      strLstripSlash (extract_channel_from_element (cands.getD i default)) ≠ "" →
      strContains env.newUrl
        (strLstripSlash (extract_channel_from_element (cands.getD i default))) = false →
      select_streamer p env i = .okWarned) ∧
    (∀ (p : SearchPage) (cands : List DomElem) (env : ClickEnv) (i : Nat),
      get_streamer_elements p = .ok cands → i < cands.length →
      env.anyClickable = true → env.urlChanged = false →
      select_streamer p env i = .navTimeout) := by
  refine ⟨?_, ?_, ?_⟩
  · intro p cands env i hok hi ha hu
    rw [select_streamer_eq_select_from env i hok]
    exact select_from_returns_normally hi ha hu
  · intro p cands env i hok hi ha hu hne hmiss
    rw [select_streamer_eq_select_from env i hok]
    exact select_from_okWarned hi ha hu hne hmiss
  · intro p cands env i hok hi ha hu
    rw [select_streamer_eq_select_from env i hok]
    exact select_from_navTimeout hi ha hu

/-- C4 witness: on concrete inputs the channel mismatch is soft — the
method warns and returns normally. -/
theorem c4_navigation_witness :
    select_streamer c4Page c4WEnv 0 = .okWarned ∧
    (select_streamer c4Page c4WEnv 0).returnsNormally = true :=
  ⟨c4_navigation_amended.2.1 c4Page [c4Card] c4WEnv 0 (by rfl) (by decide) rfl rfl
      (by decide) (by decide),
    c4_navigation_amended.1 c4Page [c4Card] c4WEnv 0 (by rfl) (by decide) rfl rfl⟩

/-- C5 counterexample: with one candidate, index `len-1 = 0`, and the
clickability wait succeeding, `select_streamer` still aborts (navigation
timeout) because the URL never changes — clickability alone does not
guarantee success. -/
theorem c5_select_counterexample :
    get_streamer_elements c5Page = .ok [c5Card] ∧
    c5Env.anyClickable = true ∧
    select_streamer c5Page c5Env ([c5Card].length - 1) = .navTimeout ∧
    SelectOutcome.navTimeout.returnsNormally = false :=
  ⟨by rfl, rfl, by rfl, rfl⟩

/-- C5 (amended): `select_streamer` with `index ≥ len(candidates)` (in
particular `index = len`) always raises the index-out-of-range error,
fatal to the test; with `index = len-1` it returns normally provided the
clickability wait succeeds and the click produces a URL change within
the bounded wait. -/
theorem c5_select_amended :
    (∀ (p : SearchPage) (cands : List DomElem) (env : ClickEnv) (i : Nat),
      get_streamer_elements p = .ok cands → cands.length ≤ i →
      select_streamer p env i = .indexError i cands.length) ∧
    (∀ (p : SearchPage) (cands : List DomElem) (env : ClickEnv),
      get_streamer_elements p = .ok cands → cands ≠ [] →
      env.anyClickable = true → env.urlChanged = true →
      (select_streamer p env (cands.length - 1)).returnsNormally = true) := by
  constructor
  · intro p cands env i hok hi
    rw [select_streamer_eq_select_from env i hok]
    exact select_from_indexError env hi
  · intro p cands env hok hne ha hu
    rw [select_streamer_eq_select_from env (cands.length - 1) hok]
    have hlen : 0 < cands.length := List.length_pos.mpr hne
    exact select_from_returns_normally (by omega) ha hu

/-- C5 witness: index `len` raises `IndexError`; index `len-1` returns
normally when the waits succeed. -/
theorem c5_select_witness :
    select_streamer c5Page c5WEnv 1 = .indexError 1 1 ∧
    (select_streamer c5Page c5WEnv 0).returnsNormally = true :=
  ⟨c5_select_amended.1 c5Page [c5Card] c5WEnv 1 (by rfl) (by decide),
    c5_select_amended.2 c5Page [c5Card] c5WEnv (by rfl) (by decide) rfl rfl⟩

/-- C1 counterexample: the first locator yields a visible match
(`c1BadImg` is displayed), yet `get_streamer_elements` attempts the
second locator and returns its matches — because the first locator's
matches were all rejected by the validity filter. -/
theorem c1_priority_counterexample :
    c1Page.searchResultCardImgs = [c1BadImg] ∧ c1BadImg.displayed = true ∧
    get_streamer_elements_trace c1Page =
      ([.searchResultCards, .liveChannelCards], [], .ok [c1GoodCard]) ∧
    c1GoodCard ∉ c1Page.searchResultCardImgs :=
  ⟨rfl, rfl, by rfl, by decide⟩

/-- C1 (amended): locators are attempted strictly in listed priority
order.  In `get_streamer_elements` the method returns the first locator
whose matches yield at least one valid candidate, attempting exactly the
locators up to it and none later, regardless of what later locators
would match; a locator whose matches are all filtered out falls through
to the next.  In `click_search_icon` the first visible locator is
clicked and no later locator is attempted. -/
theorem c1_priority_amended :
    (∀ p : SearchPage,
      (branch1Valid p ≠ [] →
        get_streamer_elements_trace p =
          ([.searchResultCards], [], .ok (branch1Valid p))) ∧
      (branch1Valid p = [] → hrefBranchValid p.liveChannelCards ≠ [] →
        get_streamer_elements_trace p =
          ([.searchResultCards, .liveChannelCards], [],
            .ok (hrefBranchValid p.liveChannelCards))) ∧
      (branch1Valid p = [] → hrefBranchValid p.liveChannelCards = [] →
        hrefBranchValid p.channelCards ≠ [] →
        get_streamer_elements_trace p =
          ([.searchResultCards, .liveChannelCards, .channelCards], [],
            .ok (hrefBranchValid p.channelCards))) ∧
      (branch1Valid p = [] → hrefBranchValid p.liveChannelCards = [] →
        hrefBranchValid p.channelCards = [] → hrefBranchValid p.streamerLinks ≠ [] →
        get_streamer_elements_trace p =
          (streamerChain, [], .ok (hrefBranchValid p.streamerLinks)))) ∧
    (∀ h : HomePage,
      (h.browseVisible = true → click_search_icon h = ([], .ok .browse)) ∧
      (h.browseVisible = false → h.browseAltVisible = true →
        click_search_icon h = ([], .ok .browseAlt)) ∧
      (h.browseVisible = false → h.browseAltVisible = false →
        h.browseAlt2Visible = true →
        click_search_icon h = ([], .ok .browseAlt2)) ∧
      (h.browseVisible = false → h.browseAltVisible = false →
        h.browseAlt2Visible = false → h.searchIconVisible = true →
        click_search_icon h = ([], .ok .searchIcon)) ∧
      (h.browseVisible = false → h.browseAltVisible = false →
        h.browseAlt2Visible = false → h.searchIconVisible = false →
        h.searchButtonVisible = true →
        click_search_icon h = ([], .ok .searchButton)) ∧
      (h.browseVisible = false → h.browseAltVisible = false →
        h.browseAlt2Visible = false → h.searchIconVisible = false →
        h.searchButtonVisible = false → h.searchButtonAltVisible = true →
        click_search_icon h = ([], .ok .searchButtonAlt)) ∧
      (h.browseVisible = false → h.browseAltVisible = false →
        h.browseAlt2Visible = false → h.searchIconVisible = false →
        h.searchButtonVisible = false → h.searchButtonAltVisible = false →
        h.browseTextPresent = true →
        click_search_icon h = ([], .ok .jsBrowse))) := by
  constructor
  · intro p
    exact ⟨fun h1 => gse_trace_branch1 h1,
      fun h1 h2 => gse_trace_branch2 h1 h2,
      fun h1 h2 h3 => gse_trace_branch3 h1 h2 h3,
      fun h1 h2 h3 h4 => gse_trace_branch4 h1 h2 h3 h4⟩
  · intro h
    refine ⟨?_, ?_, ?_, ?_, ?_, ?_, ?_⟩ <;>
      · intros
        simp [click_search_icon, *]

/-- C1 witness: first-wins behaviour at concrete inputs. -/
theorem c1_priority_witness :
    get_streamer_elements_trace c1WPage =
      ([.searchResultCards], [], .ok [c1WCard]) ∧
    click_search_icon c1WHome = ([], .ok .browse) :=
  ⟨(c1_priority_amended.1 c1WPage).1 (by decide),
    (c1_priority_amended.2 c1WHome).1 rfl⟩

/-- C2 counterexample: the filtered candidate list of the first locator
consists of ancestors of the raw matches, so it is not a subset of the
raw input set. -/
theorem c2_filter_counterexample :
    c2Page.searchResultCardImgs = [c2Img] ∧
    get_streamer_elements c2Page = .ok [c2Parent] ∧
    c2Parent ∉ c2Page.searchResultCardImgs :=
  ⟨rfl, by rfl, by decide⟩

/-- C2 (amended): for the three href-based locators the filtered list is
a sublist of the raw input (a subset preserving relative order) and each
kept element is displayed, has a valid extracted channel path, and
matches the keyword.  For the image-based first locator, the output is,
in input order, the clickable ancestors of the displayed raw images
filtered by the same path-and-keyword predicate on the ancestor; each
kept ancestor has a valid channel path and matches the keyword, but is
an ancestor of an input image rather than a member of the input. -/
theorem c2_filter_amended :
    (∀ l : List DomElem, List.Sublist (hrefBranchValid l) l) ∧
    (∀ (l : List DomElem) (e : DomElem), e ∈ hrefBranchValid l →
      e.displayed = true ∧
      is_valid_channel_path (extract_channel_from_element e) = true ∧
      is_streaming_game e "StarCraft II" = true) ∧
    (∀ p : SearchPage,
      branch1Valid p =
        ((p.searchResultCardImgs.filter (fun i => i.displayed)).map p.imgAncestor).filter
          (fun a => is_valid_channel_path (extract_channel_from_element a) &&
            is_streaming_game a "StarCraft II")) ∧
    (∀ (p : SearchPage) (e : DomElem), e ∈ branch1Valid p →
      is_valid_channel_path (extract_channel_from_element e) = true ∧
      is_streaming_game e "StarCraft II" = true) :=
  ⟨hrefBranchValid_sublist, fun _ _ h => mem_hrefBranchValid h, branch1Valid_eq,
    fun _ _ h => mem_branch1Valid h⟩

/-- C2 witness: a concrete kept element satisfies all three predicates. -/
theorem c2_filter_witness :
    c2WCard.displayed = true ∧
    is_valid_channel_path (extract_channel_from_element c2WCard) = true ∧
    is_streaming_game c2WCard "StarCraft II" = true :=
  c2_filter_amended.2.1 [c2WCard] c2WCard (by decide)

/-- C9 counterexample: `get_streamer_elements` can return an element
that is not displayed (the first branch checks the image's visibility,
never the returned ancestor's). -/
theorem c9_invariant_counterexample :
    get_streamer_elements c9Page = .ok [c9HiddenParent] ∧
    c9HiddenParent.displayed = false :=
  ⟨by rfl, rfl⟩

/-- C9 (amended): every element returned by `get_streamer_elements` has
a valid extracted channel path and satisfies the keyword predicate for
the hard-coded constant `"StarCraft II"` — the method takes no query, so
this holds regardless of what was passed to `search_for`; elements
produced by the three href-based locators are additionally displayed,
while first-locator elements are clickable ancestors of displayed images
and are not themselves display-checked. -/
theorem c9_invariant_amended :
    (∀ (p : SearchPage) (l : List DomElem), get_streamer_elements p = .ok l →
      ∀ e ∈ l, is_valid_channel_path (extract_channel_from_element e) = true ∧
        is_streaming_game e "StarCraft II" = true) ∧
    (∀ (p : SearchPage) (l : List DomElem), branch1Valid p = [] →
      get_streamer_elements p = .ok l → ∀ e ∈ l, e.displayed = true) := by
  constructor
  · intro p l hok e he
    rcases gse_ok_cases hok with rfl | rfl | rfl | rfl
    · exact mem_branch1Valid he
    · exact (mem_hrefBranchValid he).2
    · exact (mem_hrefBranchValid he).2
    · exact (mem_hrefBranchValid he).2
  · intro p l h1 hok e he
    rcases gse_ok_cases hok with rfl | rfl | rfl | rfl
    · rw [h1] at he
      exact absurd he (List.not_mem_nil e)
    · exact (mem_hrefBranchValid he).1
    · exact (mem_hrefBranchValid he).1
    · exact (mem_hrefBranchValid he).1

/-- C9 witness: the invariant at a concrete successful resolution. -/
theorem c9_invariant_witness :
    is_valid_channel_path (extract_channel_from_element c9WCard) = true ∧
    is_streaming_game c9WCard "StarCraft II" = true :=
  c9_invariant_amended.1 c9WPage [c9WCard] (by rfl) c9WCard (by decide)

end SelTask
